import Mathlib

/-!
Verification of the configuration-gated loading mechanism and the populate
command of the `uzbekistan` Django plugin, shallowly embedded from
`uzbekistan/dynamic_importer.py` and
`uzbekistan/management/commands/populate_uzbekistan.py`.

Python values that the configuration surface can hold are modelled by the
inductive `PyValue`; Python dicts are association lists whose keys are
assumed distinct (a Python dict cannot hold a key twice), exceptions by the
`Except` monad with the error taxonomy `PyError`.
-/

/-- Model of the Python values appearing in the UZBEKISTAN configuration:
None, booleans, integers, strings and (string-keyed) dicts. -/
inductive PyValue : Type where
  | none : PyValue
  | bool : Bool → PyValue
  | int : Int → PyValue
  | str : String → PyValue
  | dict : List (String × PyValue) → PyValue
  deriving Repr

/-- Python truthiness (`bool(v)`): None and False are falsey, numbers are
truthy unless zero, strings unless empty, dicts unless empty. -/
def PyValue.truthy : PyValue → Bool
  | PyValue.none => false
  | PyValue.bool b => b
  | PyValue.int n => n != 0
  | PyValue.str s => !s.isEmpty
  | PyValue.dict entries => !entries.isEmpty

/-- Python equality of a value against a string literal (`v == "s"`):
true exactly for the equal string, false for every other value. -/
def PyValue.eqStr : PyValue → String → Bool
  | PyValue.str t, s => t == s
  | _, _ => false

/-- Python `str(v)` as used in f-strings, for the value kinds that occur as
a cache key. (A dict is rendered abbreviated; no code path
cares about that rendering.) -/
def PyValue.pyStr : PyValue → String
  | PyValue.none => "None"
  | PyValue.bool b => if b then "True" else "False"
  | PyValue.int n => toString n
  | PyValue.str s => s
  | PyValue.dict _ => "dict"

/-- The error taxonomy of the embedded code: the Django exception
`ImproperlyConfigured`, the two module-local exception classes
`DynamicImportError` and `CacheIncorrectlyConfigured`, Python built-in
errors, Django ORM lookup errors, and `CommandError`. -/
inductive PyError : Type where
  | improperlyConfigured : String → PyError
  | dynamicImportError : String → PyError
  | cacheIncorrectlyConfigured : String → PyError
  | importError : String → PyError
  | attributeError : String → PyError
  | keyError : String → PyError
  | typeError : String → PyError
  | doesNotExist : String → PyError
  | multipleObjectsReturned : String → PyError
  | commandError : String → PyError
  deriving DecidableEq, Repr

/-- The message a `PyError` carries (Python `str(e)`). -/
def PyError.msg : PyError → String
  | PyError.improperlyConfigured m => m
  | PyError.dynamicImportError m => m
  | PyError.cacheIncorrectlyConfigured m => m
  | PyError.importError m => m
  | PyError.attributeError m => m
  | PyError.keyError m => m
  | PyError.typeError m => m
  | PyError.doesNotExist m => m
  | PyError.multipleObjectsReturned m => m
  | PyError.commandError m => m

/-- Python `s.lower()` on a string, character by character. -/
def strLower (s : String) : String := String.mk (s.data.map Char.toLower)

/-- Python set construction from a list: keeps the first occurrence of each
element, dropping later duplicates. -/
def pySet : List String → List String
  | [] => []
  | x :: xs => x :: (pySet xs).filter (fun y => !(y == x))

/-- Host Django settings, reduced to the one attribute the embedded code
reads: `Option.none` models the `UZBEKISTAN` attribute being absent from
settings, `Option.some PyValue.none` models it being present but `None`. -/
structure DjangoSettings : Type where
  uzbekistan : Option PyValue

/-- Python `d.get(key, default)` on an association-list dict: the value
stored under the first matching key, else the default. -/
def dictGet (entries : List (String × PyValue)) (key : String)
    (default : PyValue) : PyValue :=
  match entries.find? (fun p => p.fst == key) with
  | Option.some p => p.snd
  | Option.none => default

/-- Python `v.get(key, default)` on a value that may fail to be a dict
(`AttributeError` when it is not). -/
def pyGetMethod (v : PyValue) (key : String) (default : PyValue) :
    Except PyError PyValue :=
  match v with
  | PyValue.dict entries => Except.ok (dictGet entries key default)
  | _ => Except.error (PyError.attributeError ("object has no attribute get"))

/-- Python `v[key]` subscripting: `KeyError` when the key is absent,
`TypeError` when the value is not a dict. -/
def pyGetItem (v : PyValue) (key : String) : Except PyError PyValue :=
  match v with
  | PyValue.dict entries =>
      match entries.find? (fun p => p.fst == key) with
      | Option.some p => Except.ok p.snd
      | Option.none => Except.error (PyError.keyError key)
  | _ => Except.error (PyError.typeError ("object is not subscriptable"))

/-- Embeds `get_uzbekistan_setting` (dynamic_importer.py lines 22-40):
raises `ImproperlyConfigured` when the `UZBEKISTAN` settings attribute is
absent or `None`, otherwise delegates to `settings.UZBEKISTAN.get`. -/
def get_uzbekistan_setting (st : DjangoSettings) (setting_name : String)
    (default : PyValue) : Except PyError PyValue :=
  match st.uzbekistan with
  | Option.none =>
      Except.error (PyError.improperlyConfigured
        ("The UZBEKISTAN setting is required. Please add it to your settings.py file."))
  | Option.some PyValue.none =>
      Except.error (PyError.improperlyConfigured
        ("The UZBEKISTAN setting is required. Please add it to your settings.py file."))
  | Option.some v => pyGetMethod v setting_name default

/-- The set comprehension shared by `get_enabled_models` and
`get_enabled_views`: lower-cased keys of the truthy entries, as a
duplicate-free list (Python set). Iterating `.items()` on a non-dict raises
`AttributeError`. -/
def enabledNameSet (v : PyValue) : Except PyError (List String) :=
  match v with
  | PyValue.dict entries =>
      Except.ok
        (pySet ((entries.filter (fun p => p.snd.truthy)).map
          (fun p => strLower p.fst)))
  | _ => Except.error (PyError.attributeError ("object has no attribute items"))

/-- Embeds `get_enabled_models` (dynamic_importer.py lines 43-53). The
`lru_cache` memoization is invisible here because the function is pure. -/
def get_enabled_models (st : DjangoSettings) : Except PyError (List String) :=
  match get_uzbekistan_setting st ("models") (PyValue.dict []) with
  | Except.error e => Except.error e
  | Except.ok models => enabledNameSet models

/-- Embeds `get_enabled_views` (dynamic_importer.py lines 56-66). -/
def get_enabled_views (st : DjangoSettings) : Except PyError (List String) :=
  match get_uzbekistan_setting st ("views") (PyValue.dict []) with
  | Except.error e => Except.error e
  | Except.ok views => enabledNameSet views

/-- A cache backend with internal state `σ`, exposing the three operations
the health check performs. Each operation either raises (an `Except.error`
carrying the exception text) or succeeds with a new backend state;
`get` also returns the value found (Django `cache.get` returns `None` for a
missing key, which `PyValue.none` models). -/
structure CacheBackend (σ : Type) : Type where
  set : σ → String → PyValue → Except String σ
  get : σ → String → Except String (PyValue × σ)
  delete : σ → String → Except String σ

/-- A local-memory cache backend in the style of Django locmem: the state is
the store itself, `set` overwrites the key, `get` looks it up (missing keys
give `None`), `delete` removes it, and no operation ever raises. -/
def locmemBackend : CacheBackend (List (String × PyValue)) :=
  ⟨fun s k v => Except.ok ((k, v) :: s.filter (fun p => !(p.fst == k))),
   fun s k =>
     match s.find? (fun p => p.fst == k) with
     | Option.some p => Except.ok (p.snd, s)
     | Option.none => Except.ok (PyValue.none, s),
   fun s k => Except.ok (s.filter (fun p => !(p.fst == k)))⟩

/-- The inline default the source passes for the `cache` setting
(dynamic_importer.py lines 77-81): enabled, one hour timeout, key prefix
`uzbekistan`. -/
def cacheDefault : PyValue :=
  PyValue.dict
    [("enabled", PyValue.bool true),
     ("timeout", PyValue.int 3600),
     ("key_prefix", PyValue.str "uzbekistan")]

/-- The sentinel key of the health check: the key-prefix setting of the
cache sub-configuration, defaulting to `uzbekistan`, followed by the fixed
suffix. -/
def sentinelKey (entries : List (String × PyValue)) : String :=
  (dictGet entries ("key_prefix") (PyValue.str "uzbekistan")).pyStr
    ++ "_cache_health_check"

/-- The body of the `try` block of `get_cache_settings`
(dynamic_importer.py lines 83-93): set the sentinel key to `"alive"`, read
it back, delete it, and raise when the value read differs from the value
written. The result is the final backend state, or the text of the
exception the block raised. -/
def cacheHealthCheck {σ : Type} (b : CacheBackend σ) (s0 : σ)
    (entries : List (String × PyValue)) : Except String σ :=
  match b.set s0 (sentinelKey entries) (PyValue.str "alive") with
  | Except.error msg => Except.error msg
  | Except.ok s1 =>
      match b.get s1 (sentinelKey entries) with
      | Except.error msg => Except.error msg
      | Except.ok (cache_data, s2) =>
          match b.delete s2 (sentinelKey entries) with
          | Except.error msg => Except.error msg
          | Except.ok s3 =>
              if cache_data.eqStr ("alive") then Except.ok s3
              else Except.error ("Cache is not configured correctly.")

/-- Embeds `get_cache_settings` (dynamic_importer.py lines 69-96): fetch
the `cache` sub-configuration (defaulting to `cacheDefault`), subscript its
`enabled` key, and when that is truthy run the health check, wrapping any
exception it raises into `CacheIncorrectlyConfigured`. Returns the cache
settings together with the final backend state. -/
def get_cache_settings {σ : Type} (st : DjangoSettings) (b : CacheBackend σ)
    (s0 : σ) : Except PyError (PyValue × σ) :=
  match get_uzbekistan_setting st ("cache") cacheDefault with
  | Except.error e => Except.error e
  | Except.ok cache_settings =>
      match cache_settings with
      | PyValue.dict entries =>
          match entries.find? (fun p => p.fst == "enabled") with
          | Option.none => Except.error (PyError.keyError ("enabled"))
          | Option.some pe =>
              if pe.snd.truthy then
                match cacheHealthCheck b s0 entries with
                | Except.error msg =>
                    Except.error (PyError.cacheIncorrectlyConfigured
                      ("Cache health check failed: " ++ msg))
                | Except.ok s3 => Except.ok (PyValue.dict entries, s3)
              else Except.ok (PyValue.dict entries, s0)
      | _ => Except.error (PyError.typeError ("object is not subscriptable"))

/-- Python `str.title()` on the character list, restricted to its behaviour
on ASCII text: a cased character is uppercased when the previous character
is not alphabetic, lowercased otherwise. The boolean argument records
whether the previous character was alphabetic. -/
def pyTitleGo : List Char → Bool → List Char
  | [], _ => []
  | c :: cs, prevAlpha =>
      (if prevAlpha then c.toLower else c.toUpper) :: pyTitleGo cs c.isAlpha

/-- Python `s.title()`. -/
def pyTitle (s : String) : String := String.mk (pyTitleGo s.data false)

/-- A Python class as the importer sees it: `model` is
`Option.some name` when the class has a `model` attribute whose
`__name__` is `name`, `Option.none` when it lacks the attribute. The
`className` field records the attribute name the class is bound to in its
module, so that distinct classes stay distinct. -/
structure PyClass : Type where
  className : String
  model : Option String
  deriving DecidableEq, Repr

/-- A Python module: its attribute table, mapping attribute names to the
classes bound to them. -/
structure PyModule : Type where
  attrs : List (String × PyClass)

/-- The loop body of `import_conditional_classes`
(dynamic_importer.py lines 132-157), run to completion: for each enabled
item derive the conventional class name, skip when the module lacks that
attribute, skip when the class lacks a `model` attribute, skip when the
lower-cased model name is not an enabled model, for the `views` category
skip when the item is not an enabled view, and otherwise yield the class.
No step of this loop can raise, so the result is just the yielded list.
Because the in-loop `get_enabled_views()` call is memoized it returns the
same set as the one already computed before the loop, which is the
`enabled_views` argument here. -/
def iccLoop (module : PyModule) (enabled_models enabled_views : List String)
    (class_type : String) : List String → List PyClass
  | [] => []
  | item_name :: rest =>
      match module.attrs.find? (fun p => p.fst == pyTitle item_name ++ "ListAPIView") with
      | Option.none => iccLoop module enabled_models enabled_views class_type rest
      | Option.some p =>
          match p.snd.model with
          | Option.none => iccLoop module enabled_models enabled_views class_type rest
          | Option.some model_name =>
              if enabled_models.contains (strLower model_name) then
                if class_type == "views" && !(enabled_views.contains item_name) then
                  iccLoop module enabled_models enabled_views class_type rest
                else p.snd :: iccLoop module enabled_models enabled_views class_type rest
              else iccLoop module enabled_models enabled_views class_type rest

/-- The body of `import_conditional_classes` after the module has been
imported (dynamic_importer.py lines 120-157): select the enabled-item set by
category, fetch the enabled models, short-circuit when the item set is
empty, and run the loop. An error from the enabled-set resolvers
propagates unwrapped. The result of a run is the list of classes the
generator yields, paired with the error it raises, if any. -/
def iccResolve (module : PyModule) (st : DjangoSettings)
    (class_type : String) : List PyClass × Option PyError :=
  match (if class_type == "views" then get_enabled_views st
         else get_enabled_models st) with
  | Except.error e => ([], Option.some e)
  | Except.ok enabled_items =>
      match get_enabled_models st with
      | Except.error e => ([], Option.some e)
      | Except.ok enabled_models =>
          if enabled_items.isEmpty then ([], Option.none)
          else
            (iccLoop module enabled_models enabled_items class_type
              enabled_items, Option.none)

/-- The entry point of `import_conditional_classes`
(dynamic_importer.py lines 99-118), run to exhaustion against a table
`sys` of importable modules: import the module, wrapping a missing module
into `DynamicImportError` with the text of the `ImportError` (whose quotes
around the module name are elided here), then resolve and iterate
(`iccResolve`). -/
def import_conditional_classes (sys : List (String × PyModule))
    (st : DjangoSettings) (module_name class_type : String) :
    List PyClass × Option PyError :=
  match sys.find? (fun p => p.fst == module_name) with
  | Option.none =>
      ([], Option.some (PyError.dynamicImportError
        ("Failed to import module " ++ module_name ++ ": No module named "
          ++ module_name)))
  | Option.some pm => iccResolve pm.snd st class_type

/-- A Region row (four name variants; `name_uz` is the lookup key). -/
structure Region : Type where
  name_uz : String
  name_oz : String
  name_ru : String
  name_en : String
  deriving DecidableEq, Repr

/-- A District row. The foreign key to the owning region is modelled by
the `name_uz` of that region, the field the command itself joins on. -/
structure District : Type where
  name_uz : String
  regionName : String
  name_oz : String
  name_ru : String
  name_en : String
  deriving DecidableEq, Repr

/-- A Village row; the foreign key to the owning district is modelled by
the `name_uz` of that district. -/
structure Village : Type where
  name_uz : String
  districtName : String
  name_oz : String
  name_ru : String
  deriving DecidableEq, Repr

/-- The three tables the populate command touches. -/
structure DBState : Type where
  regions : List Region
  districts : List District
  villages : List Village
  deriving DecidableEq, Repr

/-- A record of `regions.yaml`: the four required name fields. -/
structure RegionRow : Type where
  name_uz : String
  name_oz : String
  name_ru : String
  name_en : String
  deriving DecidableEq, Repr

/-- A record of `districts.yaml`: the required name fields, the
`region_name_uz` join field, and the optional `name_en`
(read with `.get("name_en", "")`). -/
structure DistrictRow : Type where
  name_uz : String
  region_name_uz : String
  name_oz : String
  name_ru : String
  name_en : Option String
  deriving DecidableEq, Repr

/-- `Region.objects.get_or_create(name_uz=..., defaults=...)`: fetch the
row with that `name_uz` when one exists, otherwise append a new row built
from the fixture record. The boolean is the Django `created` flag. The store
is assumed duplicate-free on the lookup key, per the uniqueness invariant
of the data model. -/
def regionGetOrCreate (rs : List Region) (row : RegionRow) :
    List Region × Bool :=
  match rs.find? (fun r => r.name_uz == row.name_uz) with
  | Option.some _ => (rs, false)
  | Option.none =>
      (rs ++ [⟨row.name_uz, row.name_oz, row.name_ru, row.name_en⟩], true)

/-- The creation loop of `populate_regions`
(populate_uzbekistan.py lines 102-113). -/
def populateRegionsLoop (rs : List Region) (count : Nat) :
    List RegionRow → List Region × Nat
  | [] => (rs, count)
  | row :: rest =>
      match regionGetOrCreate rs row with
      | (rs2, created) =>
          populateRegionsLoop rs2 (if created then count + 1 else count) rest

/-- Embeds `Command.populate_regions` (populate_uzbekistan.py lines
81-115). `fixture` is `Option.none` when `regions.yaml` does not exist.
(The file-not-found message names a filesystem path; the path is elided
here.) -/
def populate_regions (db : DBState) (fixture : Option (List RegionRow))
    (force : Bool) : DBState × List String :=
  if !force && !db.regions.isEmpty then
    (db, ["Regions already exist. Use --force to override."])
  else
    match fixture with
    | Option.none => (db, ["Regions file not found"])
    | Option.some rows =>
        let db1 := if force then { db with regions := [] } else db
        match populateRegionsLoop db1.regions 0 rows with
        | (rs, count) =>
            ({ db1 with regions := rs },
             ["Created " ++ toString count ++ " regions"])

/-- `Region.objects.get(name_uz=name)`: `DoesNotExist` when no row
matches, `MultipleObjectsReturned` when several do. -/
def regionObjectsGet (rs : List Region) (name : String) :
    Except PyError Region :=
  match rs.filter (fun r => r.name_uz == name) with
  | [] => Except.error (PyError.doesNotExist
      ("Region matching query does not exist."))
  | [r] => Except.ok r
  | _ :: _ :: _ => Except.error (PyError.multipleObjectsReturned
      ("get returned more than one Region"))

/-- `District.objects.get_or_create(name_uz=..., region=..., defaults=...)`
(absent `name_en` defaults to the empty string). -/
def districtGetOrCreate (ds : List District) (row : DistrictRow)
    (region : Region) : List District × Bool :=
  match ds.find? (fun d =>
      d.name_uz == row.name_uz && d.regionName == region.name_uz) with
  | Option.some _ => (ds, false)
  | Option.none =>
      (ds ++ [⟨row.name_uz, region.name_uz, row.name_oz, row.name_ru,
        row.name_en.getD ""⟩], true)

/-- The per-row loop of `Command.populate_districts`
(populate_uzbekistan.py lines 138-158): look the region up by
`region_name_uz`; on `Region.DoesNotExist` emit a warning naming the
district and skip the row; any other lookup error is not caught and aborts
the loop; otherwise get-or-create the district. -/
def populateDistrictsLoop (regions : List Region) (ds : List District)
    (count : Nat) (out : List String) :
    List DistrictRow → Except PyError (List District × Nat × List String)
  | [] => Except.ok (ds, count, out)
  | row :: rest =>
      match regionObjectsGet regions row.region_name_uz with
      | Except.ok region =>
          match districtGetOrCreate ds row region with
          | (ds2, created) =>
              populateDistrictsLoop regions ds2
                (if created then count + 1 else count) out rest
      | Except.error (PyError.doesNotExist _) =>
          populateDistrictsLoop regions ds count
            (out ++ ["Region not found for district: " ++ row.name_uz]) rest
      | Except.error e => Except.error e

/-- Embeds `Command.populate_districts` (populate_uzbekistan.py lines
117-160). -/
def populate_districts (db : DBState) (fixture : Option (List DistrictRow))
    (force : Bool) : Except PyError (DBState × List String) :=
  if !force && !db.districts.isEmpty then
    Except.ok (db, ["Districts already exist. Use --force to override."])
  else
    match fixture with
    | Option.none => Except.ok (db, ["Districts file not found"])
    | Option.some rows =>
        let db1 := if force then { db with districts := [] } else db
        match populateDistrictsLoop db1.regions db1.districts 0 [] rows with
        | Except.error e => Except.error e
        | Except.ok (ds, count, out) =>
            Except.ok ({ db1 with districts := ds },
              out ++ ["Created " ++ toString count ++ " districts"])

/-- The two hardcoded sample villages of `populate_villages`
(name_uz, name_oz, name_ru). -/
def sampleVillages : List (String × String × String) :=
  [("Mirobod", "Миробод", "Мирабад"),
   ("Yunusobod", "Юнусобод", "Юнусабад")]

/-- `Village.objects.get_or_create(name_uz=..., district=..., defaults=...)`. -/
def villageGetOrCreate (vs : List Village) (districtName : String)
    (v : String × String × String) : List Village × Bool :=
  match vs.find? (fun w =>
      w.name_uz == v.fst && w.districtName == districtName) with
  | Option.some _ => (vs, false)
  | Option.none =>
      (vs ++ [⟨v.fst, districtName, v.snd.fst, v.snd.snd⟩], true)

/-- The creation loop of `populate_villages`. -/
def populateVillagesLoop (vs : List Village) (districtName : String)
    (count : Nat) : List (String × String × String) → List Village × Nat
  | [] => (vs, count)
  | v :: rest =>
      match villageGetOrCreate vs districtName v with
      | (vs2, created) =>
          populateVillagesLoop vs2 districtName
            (if created then count + 1 else count) rest

/-- Embeds `Command.populate_villages` (populate_uzbekistan.py lines
162-204): no fixture; attaches the two sample villages to
`District.objects.first()` when a district exists, else creates nothing. -/
def populate_villages (db : DBState) (force : Bool) :
    DBState × List String :=
  if !force && !db.villages.isEmpty then
    (db, ["Villages already exist. Use --force to override."])
  else
    let db1 := if force then { db with villages := [] } else db
    match db1.districts.head? with
    | Option.none => (db1, ["Created 0 villages"])
    | Option.some d =>
        match populateVillagesLoop db1.villages d.name_uz 0 sampleVillages with
        | (vs, count) =>
            ({ db1 with villages := vs },
             ["Created " ++ toString count ++ " villages"])

/-- Modelled from the spec: the command calls
`DynamicImporter.get_setting(name, default)`, but the sources define no
`DynamicImporter` (see `dynamic_importer_attrs`); per the Settings Accessor
contract of the spec that operation is `get_uzbekistan_setting`. -/
def DynamicImporter_get_setting (st : DjangoSettings) (name : String)
    (default : PyValue) : Except PyError PyValue :=
  get_uzbekistan_setting st name default

/-- Modelled from the spec: the command calls
`DynamicImporter.get_enabled_items("models")`; per the Enabled-Set Resolver
contract of the spec that operation is `get_enabled_models`. -/
def DynamicImporter_get_enabled_items_models (st : DjangoSettings) :
    Except PyError (List String) :=
  get_enabled_models st

/-- The command-line options of the populate command: `--force` and the
optional `--models` multi-choice list. -/
structure PopulateOptions : Type where
  force : Bool
  models : Option (List String)
  deriving DecidableEq, Repr

/-- The body of the `transaction.atomic()` block of `Command.handle`
(populate_uzbekistan.py lines 62-73): populate regions, then districts,
then villages, each only when selected. An error aborts the whole block;
the caller then sees the original database (atomic rollback). -/
def Command_populateAll (db : DBState) (rf : Option (List RegionRow))
    (df : Option (List DistrictRow)) (force : Bool)
    (models_to_populate : List String) :
    Except PyError (DBState × List String) :=
  match (if models_to_populate.contains ("region")
         then populate_regions db rf force else (db, [])) with
  | (db1, out1) =>
      match (if models_to_populate.contains ("district")
             then populate_districts db1 df force
             else Except.ok (db1, [])) with
      | Except.error e => Except.error e
      | Except.ok (db2, out2) =>
          match (if models_to_populate.contains ("village")
                 then populate_villages db2 force else (db2, [])) with
          | (db3, out3) => Except.ok (db3, out1 ++ out2 ++ out3)

/-- Embeds `Command.handle` (populate_uzbekistan.py lines 31-79): abort
with a warning when prepopulating is disabled and `--force` absent;
intersect the requested models with the enabled set; abort with a warning
when that intersection is empty; otherwise run the three populate steps
inside one transaction, wrapping any escaping exception into
`CommandError` with the database rolled back. -/
def Command_handle (st : DjangoSettings) (db : DBState)
    (rf : Option (List RegionRow)) (df : Option (List DistrictRow))
    (opts : PopulateOptions) : Except PyError (DBState × List String) :=
  match DynamicImporter_get_setting st ("prepopulate") (PyValue.dict []) with
  | Except.error e => Except.error e
  | Except.ok prepopulate =>
      match pyGetMethod prepopulate ("enabled") (PyValue.bool false) with
      | Except.error e => Except.error e
      | Except.ok prepopulate_enabled =>
          if !prepopulate_enabled.truthy && !opts.force then
            Except.ok (db,
              ["Prepopulate is disabled in settings. Use --force to override."])
          else
            match DynamicImporter_get_enabled_items_models st with
            | Except.error e => Except.error e
            | Except.ok enabled_models =>
                let models_to_populate :=
                  match opts.models with
                  | Option.some specific =>
                      (pySet specific).filter
                        (fun m => enabled_models.contains m)
                  | Option.none => enabled_models
                if models_to_populate.isEmpty then
                  Except.ok (db, ["No enabled models to populate."])
                else
                  match Command_populateAll db rf df opts.force
                      models_to_populate with
                  | Except.ok (db3, out) =>
                      Except.ok (db3,
                        ("Populating models: "
                          ++ String.intercalate (", ") models_to_populate)
                        :: out
                        ++ ["Successfully populated Uzbekistan database!"])
                  | Except.error e =>
                      Except.error (PyError.commandError
                        ("Error populating database: " ++ e.msg))

/-- The top-level names `uzbekistan/dynamic_importer.py` binds, in source
order: first the names its import statements bind (lines 1-7), then the two
exception classes and the five functions it defines. -/
def dynamic_importer_attrs : List String :=
  ["lru_cache", "import_module", "Generator", "Type", "Any", "Dict",
   "settings", "cache", "ImproperlyConfigured",
   "DynamicImportError", "CacheIncorrectlyConfigured",
   "get_uzbekistan_setting", "get_enabled_models", "get_enabled_views",
   "get_cache_settings", "import_conditional_classes"]

/-- Modelled from the spec: `uzbekistan/models.py` is not among the given
sources; per the data model of the spec it defines the three
administrative-division record classes. -/
def uzbekistan_models_attrs : List String :=
  ["Region", "District", "Village"]

/-- Python `from M import name`: binds `name` when it is an attribute of
module `M`, raising `ImportError` otherwise. (The Python message quotes
the two names; the quotes are elided here.) -/
def fromImport (moduleAttrs : List String) (moduleName name : String) :
    Except PyError Unit :=
  if moduleAttrs.contains name then Except.ok ()
  else
    Except.error (PyError.importError
      ("cannot import name " ++ name ++ " from " ++ moduleName))

/-- Loading `populate_uzbekistan.py` runs its import statements in order
(lines 5-12); the stdlib and Django imports are assumed importable, so the
module body reaches its `from uzbekistan...` imports and only runs past
them when each one resolves. -/
def populate_command_module_load : Except PyError Unit :=
  match fromImport uzbekistan_models_attrs ("uzbekistan.models") ("Region") with
  | Except.error e => Except.error e
  | Except.ok _ =>
      match fromImport uzbekistan_models_attrs ("uzbekistan.models") ("District") with
      | Except.error e => Except.error e
      | Except.ok _ =>
          match fromImport uzbekistan_models_attrs ("uzbekistan.models") ("Village") with
          | Except.error e => Except.error e
          | Except.ok _ =>
              fromImport dynamic_importer_attrs
                ("uzbekistan.dynamic_importer") ("DynamicImporter")

/-- Invoking the management command: Django first imports the command
module, and only a successfully loaded module can have its `Command.handle`
run. -/
def run_populate_command (st : DjangoSettings) (db : DBState)
    (rf : Option (List RegionRow)) (df : Option (List DistrictRow))
    (opts : PopulateOptions) : Except PyError (DBState × List String) :=
  match populate_command_module_load with
  | Except.error e => Except.error e
  | Except.ok _ => Command_handle st db rf df opts

/-!
Spec-side definitions. These follow the words of the spec, not the source,
and exist to be compared with the source-derived definitions above.
-/

/-- Spec-side reading of one step of the Conditional Class Importer (spec
section 4.4, steps 4-7): the class yielded for an enabled item, if any —
present under the conventional name, holding a model reference, that model
enabled, and (for the views category) the item itself an enabled view. -/
def conditionalClassSpec (module : PyModule)
    (enabled_models enabled_views : List String) (class_type : String)
    (item_name : String) : Option PyClass :=
  match module.attrs.find? (fun p => p.fst == pyTitle item_name ++ "ListAPIView") with
  | Option.none => Option.none
  | Option.some p =>
      match p.snd.model with
      | Option.none => Option.none
      | Option.some model_name =>
          if enabled_models.contains (strLower model_name)
              && (!(class_type == "views") || enabled_views.contains item_name)
          then Option.some p.snd
          else Option.none

/-- Spec-side reading of the Enabled-Set Resolver (spec section 8): the
set of lower-cased keys of the mapping whose value is truthy, as a
membership predicate. -/
def truthyKeySet (es : List (String × PyValue)) (n : String) : Prop :=
  ∃ kv, kv ∈ es ∧ kv.snd.truthy = true ∧ strLower kv.fst = n

/-- Whether the `region_name_uz` of a fixture row matches an existing region. -/
def rowHasRegion (regions : List Region) (row : DistrictRow) : Bool :=
  (regions.find? (fun r => r.name_uz == row.region_name_uz)).isSome

/-- Spec-side processing of district rows (spec section 8): each row whose
region exists is get-or-created against the region found by name; rows are
never dropped for any other reason. -/
def districtsOfValidRows (regions : List Region)
    (dsc : List District × Nat) :
    List DistrictRow → List District × Nat
  | [] => dsc
  | row :: rest =>
      match regions.find? (fun r => r.name_uz == row.region_name_uz) with
      | Option.none => districtsOfValidRows regions dsc rest
      | Option.some region =>
          match districtGetOrCreate dsc.fst row region with
          | (ds2, created) =>
              districtsOfValidRows regions
                (ds2, if created then dsc.snd + 1 else dsc.snd) rest

/-!
Helper lemmas.
-/

/-- Membership in a Python set built from a list. -/
theorem mem_pySet (a : String) : ∀ l : List String, a ∈ pySet l ↔ a ∈ l := by
  intro l
  induction l with
  | nil => simp [pySet]
  | cons x xs ih =>
      simp only [pySet, List.mem_cons, List.mem_filter, ih]
      by_cases hax : a = x
      · simp [hax]
      · simp [hax]

/-- `find?` over an association list with distinct keys returns the entry
of any member key. -/
theorem find?_eq_of_mem_nodup (es : List (String × PyValue)) (k : String)
    (v : PyValue) (hnd : (es.map Prod.fst).Nodup) (hmem : (k, v) ∈ es) :
    es.find? (fun p => p.fst == k) = Option.some (k, v) := by
  induction es with
  | nil => cases hmem
  | cons e rest ih =>
      simp only [List.map_cons, List.nodup_cons] at hnd
      rcases List.mem_cons.mp hmem with h | h
      · subst h
        exact List.find?_cons_of_pos _ (by simp)
      · have hk : ¬((e.fst == k) = true) := by
          intro hb
          apply hnd.1
          rw [eq_of_beq hb]
          exact List.mem_map.mpr ⟨(k, v), h, rfl⟩
        exact (List.find?_cons_of_neg rest hk).trans (ih hnd.2 h)

/-- `find?` over an association list misses a key held by no entry. -/
theorem find?_eq_none_of_not_mem (es : List (String × PyValue)) (k : String)
    (habs : ∀ v, ¬((k, v) ∈ es)) :
    es.find? (fun p => p.fst == k) = Option.none := by
  induction es with
  | nil => rfl
  | cons e rest ih =>
      have hk : ¬((e.fst == k) = true) := by
        intro hb
        apply habs e.snd
        rw [← eq_of_beq hb]
        exact List.mem_cons_self _ _
      exact (List.find?_cons_of_neg rest hk).trans
        (ih (fun v hv => habs v (List.mem_cons.mpr (Or.inr hv))))

/-- The importer loop yields exactly what the spec-side per-item
characterization selects, item by item. -/
theorem iccLoop_eq_filterMap (module : PyModule) (em ev : List String)
    (ct : String) :
    ∀ items : List String,
      iccLoop module em ev ct items
        = items.filterMap (conditionalClassSpec module em ev ct) := by
  intro items
  induction items with
  | nil => rfl
  | cons i rest ih =>
      cases hfind : module.attrs.find? (fun p => p.fst == pyTitle i ++ "ListAPIView") with
      | none =>
          simp only [iccLoop, List.filterMap_cons, conditionalClassSpec, hfind]
          exact ih
      | some p =>
          cases hmod : p.snd.model with
          | none =>
              simp only [iccLoop, List.filterMap_cons, conditionalClassSpec,
                hfind, hmod]
              exact ih
          | some m =>
              cases hm : em.contains (strLower m) with
              | false =>
                  simp only [iccLoop, List.filterMap_cons, conditionalClassSpec,
                    hfind, hmod, hm]
                  simp [ih]
              | true =>
                  cases hct : (ct == "views") with
                  | false =>
                      simp only [iccLoop, List.filterMap_cons,
                        conditionalClassSpec, hfind, hmod, hm, hct]
                      simp [ih]
                  | true =>
                      cases hev : ev.contains i with
                      | false =>
                          simp only [iccLoop, List.filterMap_cons,
                            conditionalClassSpec, hfind, hmod, hm, hct, hev]
                          simp [ih]
                      | true =>
                          simp only [iccLoop, List.filterMap_cons,
                            conditionalClassSpec, hfind, hmod, hm, hct, hev]
                          simp [ih]

/-- The views module of the demonstration configuration: the three
conventionally named view classes, each holding its model. -/
def demoViewsModule : PyModule :=
  ⟨[("RegionListAPIView", ⟨"RegionListAPIView", Option.some ("Region")⟩),
    ("DistrictListAPIView", ⟨"DistrictListAPIView", Option.some ("District")⟩),
    ("VillageListAPIView", ⟨"VillageListAPIView", Option.some ("Village")⟩)]⟩

/-- A module table holding only the views module. -/
def demoSys : List (String × PyModule) :=
  [("uzbekistan.views", demoViewsModule)]

/-- The configuration of the spec example: the district model disabled, all
three views enabled. -/
def demoSettings : DjangoSettings :=
  ⟨Option.some (PyValue.dict
    [("models", PyValue.dict
        [("region", PyValue.bool true), ("district", PyValue.bool false),
         ("village", PyValue.bool true)]),
     ("views", PyValue.dict
        [("region", PyValue.bool true), ("district", PyValue.bool true),
         ("village", PyValue.bool true)])])⟩

/-- A found module reduces the importer to its post-import body. -/
theorem icc_found (sys : List (String × PyModule)) (st : DjangoSettings)
    (module_name class_type : String) (pm : String × PyModule)
    (hmod : sys.find? (fun p => p.fst == module_name) = Option.some pm) :
    import_conditional_classes sys st module_name class_type
      = iccResolve pm.snd st class_type := by
  unfold import_conditional_classes
  rw [hmod]

/-- The post-import body, once both enabled sets resolve. -/
theorem iccResolve_resolved (module : PyModule) (st : DjangoSettings)
    (class_type : String) (enabled_items enabled_models : List String)
    (hitems : (if class_type == "views" then get_enabled_views st
               else get_enabled_models st) = Except.ok enabled_items)
    (hmodels : get_enabled_models st = Except.ok enabled_models) :
    iccResolve module st class_type
      = (if enabled_items.isEmpty then ([], Option.none)
         else (iccLoop module enabled_models enabled_items class_type
            enabled_items, Option.none)) := by
  unfold iccResolve
  rw [hitems, hmodels]

/-- A class selected by the spec-side characterization always references
an enabled model. -/
theorem conditionalClassSpec_model_enabled (module : PyModule)
    (em ev : List String) (ct i : String) (c : PyClass)
    (h : conditionalClassSpec module em ev ct i = Option.some c) :
    ∀ m, c.model = Option.some m → em.contains (strLower m) = true := by
  intro m hm
  unfold conditionalClassSpec at h
  cases hfind : module.attrs.find? (fun p => p.fst == pyTitle i ++ "ListAPIView") with
  | none => rw [hfind] at h; cases h
  | some p =>
      simp only [hfind] at h
      cases hmodp : p.snd.model with
      | none =>
          simp only [hmodp] at h
          cases h
      | some mn =>
          simp only [hmodp] at h
          by_cases hcond : (em.contains (strLower mn)
              && (!(ct == "views") || ev.contains i)) = true
          · rw [if_pos hcond] at h
            injection h with h1
            subst h1
            rw [hmodp] at hm
            injection hm with h2
            subst h2
            rw [Bool.and_eq_true] at hcond
            exact hcond.1
          · rw [if_neg hcond] at h
            cases h

/-- C1: for every module that imports successfully and every configuration
whose enabled sets resolve, `import_conditional_classes` raises nothing and
yields exactly one class per enabled item selected by the spec-side
per-item characterization (enabled, conventionally named, holding an
enabled model); when the enabled-item set is empty nothing is yielded; and
no yielded class ever references a disabled model, so disabling a model
removes its view from the sequence even when the view flag is true. -/
theorem import_conditional_classes_spec
    (sys : List (String × PyModule)) (st : DjangoSettings)
    (module_name class_type : String) (pm : String × PyModule)
    (enabled_items enabled_models : List String)
    (hmod : sys.find? (fun p => p.fst == module_name) = Option.some pm)
    (hitems : (if class_type == "views" then get_enabled_views st
               else get_enabled_models st) = Except.ok enabled_items)
    (hmodels : get_enabled_models st = Except.ok enabled_models) :
    import_conditional_classes sys st module_name class_type
      = (enabled_items.filterMap
          (conditionalClassSpec pm.snd enabled_models enabled_items class_type),
         Option.none)
    ∧ (enabled_items = [] →
        (import_conditional_classes sys st module_name class_type).fst = [])
    ∧ (∀ c, c ∈ (import_conditional_classes sys st module_name class_type).fst →
        ∀ m, c.model = Option.some m →
          enabled_models.contains (strLower m) = true) := by
  have hmain : import_conditional_classes sys st module_name class_type
      = (enabled_items.filterMap
          (conditionalClassSpec pm.snd enabled_models enabled_items class_type),
         Option.none) := by
    rw [icc_found sys st module_name class_type pm hmod,
        iccResolve_resolved pm.snd st class_type enabled_items enabled_models
          hitems hmodels]
    cases enabled_items with
    | nil => simp
    | cons a rest =>
        rw [if_neg (by simp)]
        rw [iccLoop_eq_filterMap]
  refine ⟨hmain, ?_, ?_⟩
  · intro he
    subst he
    rw [hmain]
    simp
  · intro c hc m hm2
    rw [hmain] at hc
    rcases List.mem_filterMap.mp hc with ⟨i, _hi, hspec⟩
    exact conditionalClassSpec_model_enabled pm.snd enabled_models
      enabled_items class_type i c hspec m hm2

/-- Witness for C1 at the configuration of the spec example: with the
district model disabled and all views flagged on, exactly the region and
village views are yielded (the count drops from 3 to 2) and no error is
raised. -/
theorem import_conditional_classes_spec_witness :
    import_conditional_classes demoSys demoSettings
        ("uzbekistan.views") ("views")
      = ([⟨"RegionListAPIView", Option.some ("Region")⟩,
          ⟨"VillageListAPIView", Option.some ("Village")⟩], Option.none) :=
  (import_conditional_classes_spec demoSys demoSettings
    ("uzbekistan.views") ("views") (("uzbekistan.views"), demoViewsModule)
    ["region", "district", "village"] ["region", "village"]
    rfl rfl rfl).1

/-- C3: whenever the `models` and `views` mappings resolve, the enabled
sets are exactly the lower-cased keys whose values are truthy, and a key
whose flag is falsey is absent from the set (when no other key lower-cases
to the same name). -/
theorem enabled_sets_spec (st : DjangoSettings)
    (mes ves : List (String × PyValue)) (lm lv : List String)
    (hm : get_uzbekistan_setting st ("models") (PyValue.dict [])
        = Except.ok (PyValue.dict mes))
    (hv : get_uzbekistan_setting st ("views") (PyValue.dict [])
        = Except.ok (PyValue.dict ves))
    (hlm : get_enabled_models st = Except.ok lm)
    (hlv : get_enabled_views st = Except.ok lv) :
    (∀ n, n ∈ lm ↔ truthyKeySet mes n)
    ∧ (∀ n, n ∈ lv ↔ truthyKeySet ves n)
    ∧ (∀ k v, (k, v) ∈ mes → v.truthy = false →
        (∀ kv, kv ∈ mes → kv.snd.truthy = true → strLower kv.fst ≠ strLower k) →
        ¬(strLower k ∈ lm)) := by
  have hlm2 : lm = pySet ((mes.filter (fun p => p.snd.truthy)).map
      (fun p => strLower p.fst)) := by
    have h2 : get_enabled_models st
        = Except.ok (pySet ((mes.filter (fun p => p.snd.truthy)).map
            (fun p => strLower p.fst))) := by
      unfold get_enabled_models
      rw [hm]
      rfl
    rw [hlm] at h2
    injection h2
  have hlv2 : lv = pySet ((ves.filter (fun p => p.snd.truthy)).map
      (fun p => strLower p.fst)) := by
    have h2 : get_enabled_views st
        = Except.ok (pySet ((ves.filter (fun p => p.snd.truthy)).map
            (fun p => strLower p.fst))) := by
      unfold get_enabled_views
      rw [hv]
      rfl
    rw [hlv] at h2
    injection h2
  have hmemm : ∀ n, n ∈ lm ↔ truthyKeySet mes n := by
    intro n
    rw [hlm2, mem_pySet]
    constructor
    · intro hn
      rcases List.mem_map.mp hn with ⟨kv, hkv, hkveq⟩
      rcases List.mem_filter.mp hkv with ⟨hkv2, htruth⟩
      exact ⟨kv, hkv2, htruth, hkveq⟩
    · rintro ⟨kv, hkv, htruth, hkveq⟩
      exact List.mem_map.mpr ⟨kv, List.mem_filter.mpr ⟨hkv, htruth⟩, hkveq⟩
  have hmemv : ∀ n, n ∈ lv ↔ truthyKeySet ves n := by
    intro n
    rw [hlv2, mem_pySet]
    constructor
    · intro hn
      rcases List.mem_map.mp hn with ⟨kv, hkv, hkveq⟩
      rcases List.mem_filter.mp hkv with ⟨hkv2, htruth⟩
      exact ⟨kv, hkv2, htruth, hkveq⟩
    · rintro ⟨kv, hkv, htruth, hkveq⟩
      exact List.mem_map.mpr ⟨kv, List.mem_filter.mpr ⟨hkv, htruth⟩, hkveq⟩
  refine ⟨hmemm, hmemv, ?_⟩
  intro k v _hkv _hfalse hnocol hmem
  rcases (hmemm (strLower k)).mp hmem with ⟨kv2, hkv2, htr2, heq2⟩
  exact hnocol kv2 hkv2 htr2 heq2

/-- Witness for C3 at the spec example — region true, district false,
village true: the computed enabled-model set is region and village, and
membership of the disabled name district matches the truthy-key
characterization (both sides false). -/
theorem enabled_sets_spec_witness :
    ("district" ∈ ["region", "village"]
      ↔ truthyKeySet
          [("region", PyValue.bool true), ("district", PyValue.bool false),
           ("village", PyValue.bool true)] ("district")) :=
  (enabled_sets_spec demoSettings
    [("region", PyValue.bool true), ("district", PyValue.bool false),
     ("village", PyValue.bool true)]
    [("region", PyValue.bool true), ("district", PyValue.bool true),
     ("village", PyValue.bool true)]
    ["region", "village"] ["region", "district", "village"]
    rfl rfl rfl rfl).1 ("district")

/-- C4: importing from a module path absent from the module table raises
the distinct `DynamicImportError` naming the module, and yields no class
before raising. -/
theorem import_failure_spec (sys : List (String × PyModule))
    (st : DjangoSettings) (module_name class_type : String)
    (h : sys.find? (fun p => p.fst == module_name) = Option.none) :
    import_conditional_classes sys st module_name class_type
      = ([], Option.some (PyError.dynamicImportError
          ("Failed to import module " ++ module_name ++ ": No module named "
            ++ module_name))) := by
  unfold import_conditional_classes
  rw [h]

/-- Witness for C4: importing from `invalid.module` against an empty
module table yields nothing and raises the import error. -/
theorem import_failure_spec_witness :
    import_conditional_classes [] demoSettings ("invalid.module") ("views")
      = ([], Option.some (PyError.dynamicImportError
          ("Failed to import module invalid.module: No module named invalid.module"))) :=
  import_failure_spec [] demoSettings ("invalid.module") ("views") rfl

/-- C6: the settings accessor raises `ImproperlyConfigured` when the root
configuration object is absent or null, and otherwise returns the value
stored under the requested name, or the default when the name is absent. -/
theorem get_uzbekistan_setting_spec (st : DjangoSettings) (name : String)
    (default : PyValue) :
    ((st.uzbekistan = Option.none ∨ st.uzbekistan = Option.some PyValue.none) →
      get_uzbekistan_setting st name default
        = Except.error (PyError.improperlyConfigured
            ("The UZBEKISTAN setting is required. Please add it to your settings.py file.")))
    ∧ (∀ es k v, st.uzbekistan = Option.some (PyValue.dict es) →
        (es.map Prod.fst).Nodup → (k, v) ∈ es → k = name →
        get_uzbekistan_setting st name default = Except.ok v)
    ∧ (∀ es, st.uzbekistan = Option.some (PyValue.dict es) →
        (∀ v, ¬((name, v) ∈ es)) →
        get_uzbekistan_setting st name default = Except.ok default) := by
  refine ⟨?_, ?_, ?_⟩
  · rintro (h | h) <;> (unfold get_uzbekistan_setting; rw [h])
  · intro es k v hst hnd hmem hk
    subst hk
    unfold get_uzbekistan_setting
    rw [hst]
    show pyGetMethod (PyValue.dict es) k default = Except.ok v
    show Except.ok (dictGet es k default) = Except.ok v
    unfold dictGet
    rw [find?_eq_of_mem_nodup es k v hnd hmem]
  · intro es hst habs
    unfold get_uzbekistan_setting
    rw [hst]
    show pyGetMethod (PyValue.dict es) name default = Except.ok default
    show Except.ok (dictGet es name default) = Except.ok default
    unfold dictGet
    rw [find?_eq_none_of_not_mem es name habs]

/-- Witness for C6: null root configuration raises; a stored key is
returned; a missing key falls back to the default. -/
theorem get_uzbekistan_setting_spec_witness :
    get_uzbekistan_setting ⟨Option.none⟩ ("models") PyValue.none
      = Except.error (PyError.improperlyConfigured
          ("The UZBEKISTAN setting is required. Please add it to your settings.py file."))
    ∧ get_uzbekistan_setting
        ⟨Option.some (PyValue.dict [("models", PyValue.bool true)])⟩
        ("models") PyValue.none
      = Except.ok (PyValue.bool true)
    ∧ get_uzbekistan_setting ⟨Option.some (PyValue.dict [])⟩ ("models")
        (PyValue.int 7)
      = Except.ok (PyValue.int 7) :=
  ⟨(get_uzbekistan_setting_spec ⟨Option.none⟩ ("models") PyValue.none).1
      (Or.inl rfl),
   (get_uzbekistan_setting_spec
      ⟨Option.some (PyValue.dict [("models", PyValue.bool true)])⟩
      ("models") PyValue.none).2.1
      [("models", PyValue.bool true)] ("models") (PyValue.bool true)
      rfl (by simp) (by simp) rfl,
   (get_uzbekistan_setting_spec ⟨Option.some (PyValue.dict [])⟩ ("models")
      (PyValue.int 7)).2.2 [] rfl (fun v h => by cases h)⟩

/-- When the `enabled` flag of the cache sub-configuration is truthy,
`get_cache_settings` reduces to the wrapped outcome of the health check. -/
theorem get_cache_settings_enabled {σ : Type} (st : DjangoSettings)
    (b : CacheBackend σ) (s0 : σ) (entries : List (String × PyValue))
    (pe : String × PyValue)
    (hcfg : get_uzbekistan_setting st ("cache") cacheDefault
        = Except.ok (PyValue.dict entries))
    (hen : entries.find? (fun p => p.fst == "enabled") = Option.some pe)
    (ht : pe.snd.truthy = true) :
    get_cache_settings st b s0
      = (match cacheHealthCheck b s0 entries with
         | Except.error msg =>
             Except.error (PyError.cacheIncorrectlyConfigured
               ("Cache health check failed: " ++ msg))
         | Except.ok s3 => Except.ok (PyValue.dict entries, s3)) := by
  unfold get_cache_settings
  simp only [hcfg, hen, ht, if_true]

/-- C5: with the cache sub-configuration enabled, the checker performs the
set/read/delete round-trip on the sentinel key; an exception from any of
the three backend operations, and a value mismatch on the read-back, each
surface to the caller as `CacheIncorrectlyConfigured`, never swallowed,
while a clean round-trip returns the cache settings normally. -/
theorem cache_health_surfaced {σ : Type} (st : DjangoSettings)
    (b : CacheBackend σ) (s0 : σ) (entries : List (String × PyValue))
    (pe : String × PyValue)
    (hcfg : get_uzbekistan_setting st ("cache") cacheDefault
        = Except.ok (PyValue.dict entries))
    (hen : entries.find? (fun p => p.fst == "enabled") = Option.some pe)
    (ht : pe.snd.truthy = true) :
    (∀ msg, b.set s0 (sentinelKey entries) (PyValue.str "alive")
          = Except.error msg →
        get_cache_settings st b s0
          = Except.error (PyError.cacheIncorrectlyConfigured
              ("Cache health check failed: " ++ msg)))
    ∧ (∀ s1, b.set s0 (sentinelKey entries) (PyValue.str "alive")
          = Except.ok s1 →
        (∀ msg, b.get s1 (sentinelKey entries) = Except.error msg →
            get_cache_settings st b s0
              = Except.error (PyError.cacheIncorrectlyConfigured
                  ("Cache health check failed: " ++ msg)))
        ∧ (∀ d s2, b.get s1 (sentinelKey entries) = Except.ok (d, s2) →
            (∀ msg, b.delete s2 (sentinelKey entries) = Except.error msg →
                get_cache_settings st b s0
                  = Except.error (PyError.cacheIncorrectlyConfigured
                      ("Cache health check failed: " ++ msg)))
            ∧ (∀ s3, b.delete s2 (sentinelKey entries) = Except.ok s3 →
                (d.eqStr ("alive") = false →
                    get_cache_settings st b s0
                      = Except.error (PyError.cacheIncorrectlyConfigured
                          ("Cache health check failed: Cache is not configured correctly.")))
                ∧ (d.eqStr ("alive") = true →
                    get_cache_settings st b s0
                      = Except.ok (PyValue.dict entries, s3))))) := by
  have hred := get_cache_settings_enabled st b s0 entries pe hcfg hen ht
  refine ⟨?_, ?_⟩
  · intro msg hset
    rw [hred]
    unfold cacheHealthCheck
    simp [hset]
  · intro s1 hset
    refine ⟨?_, ?_⟩
    · intro msg hget
      rw [hred]
      unfold cacheHealthCheck
      simp [hset, hget]
    · intro d s2 hget
      refine ⟨?_, ?_⟩
      · intro msg hdel
        rw [hred]
        unfold cacheHealthCheck
        simp [hset, hget, hdel]
      · intro s3 hdel
        refine ⟨?_, ?_⟩
        · intro hd
          rw [hred]
          unfold cacheHealthCheck
          simp [hset, hget, hdel, hd]
        · intro hd
          rw [hred]
          unfold cacheHealthCheck
          simp [hset, hget, hdel, hd]

/-- A backend whose every operation raises. -/
def failBackend : CacheBackend Unit :=
  ⟨fun _ _ _ => Except.error ("connection refused"),
   fun _ _ => Except.error ("connection refused"),
   fun _ _ => Except.error ("connection refused")⟩

/-- Witness for C5: against a backend whose `set` raises, the enabled
health check surfaces the exception as `CacheIncorrectlyConfigured`. -/
theorem cache_health_surfaced_witness :
    get_cache_settings
        ⟨Option.some (PyValue.dict [("cache", PyValue.dict
          [("enabled", PyValue.bool true), ("timeout", PyValue.int 300)])])⟩
        failBackend ()
      = Except.error (PyError.cacheIncorrectlyConfigured
          ("Cache health check failed: connection refused")) :=
  (cache_health_surfaced
    ⟨Option.some (PyValue.dict [("cache", PyValue.dict
      [("enabled", PyValue.bool true), ("timeout", PyValue.int 300)])])⟩
    failBackend () [("enabled", PyValue.bool true), ("timeout", PyValue.int 300)]
    (("enabled"), PyValue.bool true) rfl rfl rfl).1
    ("connection refused") rfl

/-- C2 (code evaluation at the failing input): with no cache
sub-configuration supplied and a working local-memory backend,
`get_cache_settings` returns the inline default — whose `enabled` entry is
`True` and which carries a `key_prefix` — after actually running the
health check, not the dict with enabled False and timeout 3600 that the
spec sentence and the test `test_get_cache_settings_default` expect. -/
theorem get_cache_settings_default_eval :
    get_cache_settings ⟨Option.some (PyValue.dict [])⟩ locmemBackend
        ([] : List (String × PyValue))
      = Except.ok (cacheDefault, [])
    ∧ pyGetItem cacheDefault ("enabled") = Except.ok (PyValue.bool true) :=
  ⟨rfl, rfl⟩

/-- C9 (counterexample): a host configuration that supplies a cache
sub-configuration lacking the `enabled` key makes `get_cache_settings`
raise `KeyError` instead of treating the absent key as disabled. -/
theorem cache_missing_enabled_counterexample :
    get_cache_settings
        ⟨Option.some (PyValue.dict [("cache", PyValue.dict [])])⟩
        locmemBackend ([] : List (String × PyValue))
      = Except.error (PyError.keyError ("enabled")) := rfl

/-- C9 (amended): when the supplied cache sub-configuration resolves to a
mapping without an `enabled` key, `get_cache_settings` raises `KeyError`
on that key; only a wholly absent cache sub-configuration receives the
inline default, which always contains `enabled`. -/
theorem cache_missing_enabled_spec {σ : Type} (st : DjangoSettings)
    (b : CacheBackend σ) (s0 : σ) (entries : List (String × PyValue))
    (hcfg : get_uzbekistan_setting st ("cache") cacheDefault
        = Except.ok (PyValue.dict entries))
    (hmiss : entries.find? (fun p => p.fst == "enabled") = Option.none) :
    get_cache_settings st b s0 = Except.error (PyError.keyError ("enabled")) := by
  unfold get_cache_settings
  simp only [hcfg, hmiss]

/-- Witness for the amended C9 statement at a cache sub-configuration
holding only a timeout. -/
theorem cache_missing_enabled_spec_witness :
    get_cache_settings
        ⟨Option.some (PyValue.dict [("cache", PyValue.dict
          [("timeout", PyValue.int 60)])])⟩
        locmemBackend ([] : List (String × PyValue))
      = Except.error (PyError.keyError ("enabled")) :=
  cache_missing_enabled_spec
    ⟨Option.some (PyValue.dict [("cache", PyValue.dict
      [("timeout", PyValue.int 60)])])⟩
    locmemBackend [] [("timeout", PyValue.int 60)] rfl rfl

/-- C7: when the prepopulate flag resolves falsey and `--force` is absent,
the handler returns the disabled warning with the database untouched — no
rows are created. -/
theorem handle_prepopulate_disabled (st : DjangoSettings) (db : DBState)
    (rf : Option (List RegionRow)) (df : Option (List DistrictRow))
    (opts : PopulateOptions) (p e : PyValue)
    (hp : DynamicImporter_get_setting st ("prepopulate") (PyValue.dict [])
        = Except.ok p)
    (he : pyGetMethod p ("enabled") (PyValue.bool false) = Except.ok e)
    (ht : e.truthy = false)
    (hf : opts.force = false) :
    Command_handle st db rf df opts
      = Except.ok (db,
          ["Prepopulate is disabled in settings. Use --force to override."]) := by
  unfold Command_handle
  simp [hp, he, ht, hf]

/-- Witness for C7: an empty configuration (prepopulate flag defaulting to
false) and no `--force` leave an empty database untouched and emit the
disabled warning. -/
theorem handle_prepopulate_disabled_witness :
    Command_handle ⟨Option.some (PyValue.dict [])⟩ ⟨[], [], []⟩
        Option.none Option.none ⟨false, Option.none⟩
      = Except.ok (⟨[], [], []⟩,
          ["Prepopulate is disabled in settings. Use --force to override."]) :=
  handle_prepopulate_disabled ⟨Option.some (PyValue.dict [])⟩ ⟨[], [], []⟩
    Option.none Option.none ⟨false, Option.none⟩
    (PyValue.dict []) (PyValue.bool false) rfl rfl rfl rfl

/-- A name borne by no region filters to the empty list. -/
theorem regions_filter_eq_nil (regions : List Region) (name : String)
    (h : regions.find? (fun r => r.name_uz == name) = Option.none) :
    regions.filter (fun r => r.name_uz == name) = [] := by
  rw [List.filter_eq_nil_iff]
  intro r hr hb
  exact (List.find?_eq_none.mp h r hr) hb

/-- A missed region lookup raises `DoesNotExist`. -/
theorem regionObjectsGet_none (regions : List Region) (name : String)
    (h : regions.find? (fun r => r.name_uz == name) = Option.none) :
    regionObjectsGet regions name
      = Except.error (PyError.doesNotExist
          ("Region matching query does not exist.")) := by
  unfold regionObjectsGet
  rw [regions_filter_eq_nil regions name h]

/-- Under distinct region names, the name filter of a found region is that
single region. -/
theorem regions_filter_eq_singleton (regions : List Region) (name : String)
    (r : Region) (hnd : (regions.map Region.name_uz).Nodup)
    (h : regions.find? (fun r => r.name_uz == name) = Option.some r) :
    regions.filter (fun r => r.name_uz == name) = [r] := by
  induction regions with
  | nil => cases h
  | cons r0 rest ih =>
      simp only [List.map_cons, List.nodup_cons] at hnd
      cases hb : (r0.name_uz == name) with
      | true =>
          have hrest : rest.filter (fun r => r.name_uz == name) = [] := by
            apply regions_filter_eq_nil
            apply List.find?_eq_none.mpr
            intro x hx hbx
            apply hnd.1
            rw [eq_of_beq hb, ← eq_of_beq hbx]
            exact List.mem_map.mpr ⟨x, hx, rfl⟩
          have h2 := (List.find?_cons_of_pos
            (p := fun q : Region => q.name_uz == name) rest hb).symm.trans h
          have h0 : r0 = r := Option.some.inj h2
          rw [List.filter_cons_of_pos
            (p := fun q : Region => q.name_uz == name) hb, hrest, h0]
      | false =>
          have hfneg : ¬((r0.name_uz == name) = true) := by
            rw [hb]
            exact Bool.false_ne_true
          rw [List.filter_cons_of_neg
            (p := fun q : Region => q.name_uz == name) hfneg]
          have h2 := (List.find?_cons_of_neg
            (p := fun q : Region => q.name_uz == name) rest hfneg).symm.trans h
          exact ih hnd.2 h2

/-- Under distinct region names, a found region lookup returns exactly the
region `find?` locates. -/
theorem regionObjectsGet_some (regions : List Region) (name : String)
    (r : Region) (hnd : (regions.map Region.name_uz).Nodup)
    (h : regions.find? (fun r => r.name_uz == name) = Option.some r) :
    regionObjectsGet regions name = Except.ok r := by
  unfold regionObjectsGet
  rw [regions_filter_eq_singleton regions name r hnd h]

/-- C8: under distinct region names, the per-row district loop never
aborts: the rows whose `region_name_uz` matches no region are exactly the
ones skipped, each contributing one warning naming its district, while
every row whose region exists is still processed and get-or-created. -/
theorem populate_districts_partial (regions : List Region)
    (hnd : (regions.map Region.name_uz).Nodup) :
    ∀ (rows : List DistrictRow) (ds : List District) (count : Nat)
      (out : List String),
      populateDistrictsLoop regions ds count out rows
        = Except.ok
            ((districtsOfValidRows regions (ds, count)
                (rows.filter (rowHasRegion regions))).fst,
             (districtsOfValidRows regions (ds, count)
                (rows.filter (rowHasRegion regions))).snd,
             out ++ (rows.filter
                (fun row => !(rowHasRegion regions row))).map
               (fun row => "Region not found for district: " ++ row.name_uz)) := by
  intro rows
  induction rows with
  | nil =>
      intro ds count out
      simp [populateDistrictsLoop, districtsOfValidRows]
  | cons row rest ih =>
      intro ds count out
      cases hfind : regions.find? (fun r => r.name_uz == row.region_name_uz) with
      | none =>
          have hhas : rowHasRegion regions row = false := by
            unfold rowHasRegion
            rw [hfind]
            rfl
          have hget := regionObjectsGet_none regions row.region_name_uz hfind
          simp only [populateDistrictsLoop, hget]
          rw [ih ds count
            (out ++ ["Region not found for district: " ++ row.name_uz])]
          simp [hhas, List.filter_cons]
      | some region =>
          have hhas : rowHasRegion regions row = true := by
            unfold rowHasRegion
            rw [hfind]
            rfl
          have hget := regionObjectsGet_some regions row.region_name_uz region
            hnd hfind
          cases hgc : districtGetOrCreate ds row region with
          | mk ds2 created =>
              simp only [populateDistrictsLoop, hget, hgc]
              rw [ih ds2 (if created then count + 1 else count) out]
              simp only [List.filter_cons, hhas, Bool.not_true, if_true,
                if_false]
              simp [districtsOfValidRows, hfind, hgc]

/-- Witness for C8: one existing region, three rows of which the middle
one references a missing region; the two valid rows are created, the bad
row alone is warned about, and the loop completes. -/
theorem populate_districts_partial_witness :
    populateDistrictsLoop [⟨"Toshkent", "T1", "T2", "T3"⟩] [] 0 []
        [⟨"Yunusobod", "Toshkent", "a1", "a2", Option.none⟩,
         ⟨"Ghost", "Nowhere", "b1", "b2", Option.none⟩,
         ⟨"Mirobod", "Toshkent", "c1", "c2", Option.none⟩]
      = Except.ok
          ([⟨"Yunusobod", "Toshkent", "a1", "a2", ""⟩,
            ⟨"Mirobod", "Toshkent", "c1", "c2", ""⟩], 2,
           ["Region not found for district: Ghost"]) :=
  populate_districts_partial [⟨"Toshkent", "T1", "T2", "T3"⟩] (by simp)
    [⟨"Yunusobod", "Toshkent", "a1", "a2", Option.none⟩,
     ⟨"Ghost", "Nowhere", "b1", "b2", Option.none⟩,
     ⟨"Mirobod", "Toshkent", "c1", "c2", Option.none⟩] [] 0 []

/-- C10: the command module imports the name `DynamicImporter` from
`uzbekistan.dynamic_importer`, whose attribute table holds no such name;
loading the command module therefore raises `ImportError`, and every
invocation of the populate command fails with it before any handler logic
runs. -/
theorem populate_command_unreachable :
    dynamic_importer_attrs.contains ("DynamicImporter") = false
    ∧ populate_command_module_load
        = Except.error (PyError.importError
            ("cannot import name DynamicImporter from uzbekistan.dynamic_importer"))
    ∧ ∀ (st : DjangoSettings) (db : DBState) (rf : Option (List RegionRow))
        (df : Option (List DistrictRow)) (opts : PopulateOptions),
        run_populate_command st db rf df opts
          = Except.error (PyError.importError
              ("cannot import name DynamicImporter from uzbekistan.dynamic_importer")) := by
  refine ⟨rfl, rfl, ?_⟩
  intro st db rf df opts
  rfl
